import Mathlib

/-!
Verification of the Freebox dashboard core: hardware-capability detection
(`server/config.ts` / capability types), the model-detection service, the
authentication session manager and request façade (`FreeboxApiService`),
and token persistence.  Definitions are shallow embeddings of the
TypeScript source; network I/O is modelled by passing each HTTP exchange's
outcome as an explicit oracle value, and thrown JavaScript exceptions are
modelled as `Except.error`.
-/

namespace Freebox

/-- ASCII lowercasing of one character, modelling the effect of JavaScript
`String.prototype.toLowerCase` on the ASCII range (non-ASCII characters in
the marker strings are left unchanged, as `toLowerCase` leaves them). -/
def asciiLowerChar (c : Char) : Char :=
  if 'A' ≤ c ∧ c ≤ 'Z' then Char.ofNat (c.toNat + 32) else c

/-- Lowercase a string (ASCII range). -/
def lowerStr (s : String) : String :=
  ⟨s.data.map asciiLowerChar⟩

/-- `pre` is a prefix of `l` (character lists). -/
def startsWithList (l pre : List Char) : Bool :=
  match pre, l with
  | [], _ => true
  | _ :: _, [] => false
  | p :: ps, c :: cs => p == c && startsWithList cs ps

/-- Substring containment on character lists, modelling
`String.prototype.includes`. -/
def containsList (l pat : List Char) : Bool :=
  match l with
  | [] => pat.isEmpty
  | _ :: cs => startsWithList l pat || containsList cs pat

/-- Substring containment on strings. -/
def containsStr (s pat : String) : Bool :=
  containsList s.data pat.data

end Freebox

namespace Freebox

/-- `FreeboxModel` from `capabilities.ts`. -/
inductive FreeboxModel where
  | ultra
  | delta
  | pop
  | revolution
  | unknown
deriving DecidableEq, Repr

/-- `VmSupport` from `capabilities.ts`. -/
inductive VmSupport where
  | full
  | limited
  | none
deriving DecidableEq, Repr

/-- `TemperatureType` from `capabilities.ts`. -/
inductive TemperatureType where
  | quad_core
  | legacy
deriving DecidableEq, Repr

/-- `BoxFlavor` from `capabilities.ts`. -/
inductive BoxFlavor where
  | full
  | light
deriving DecidableEq, Repr

/-- `ModelBaseCapabilities` from `capabilities.ts`. -/
structure ModelBaseCapabilities where
  model : FreeboxModel
  wifi6ghz : Bool
  wifi7 : Bool
  vmSupport : VmSupport
  maxVms : Nat
  maxVmRam : Nat
  temperatureType : TemperatureType
  temperatureFields : List String
  hasInternalStorage : Bool
  maxEthernetSpeed : Nat
  maxDownloadSpeed : Nat
  maxUploadSpeed : Nat
deriving DecidableEq, Repr

/-- `FreeboxCapabilities` from `capabilities.ts`. -/
structure FreeboxCapabilities where
  model : FreeboxModel
  modelName : String
  boxFlavor : BoxFlavor
  wifi6ghz : Bool
  wifi7 : Bool
  vmSupport : VmSupport
  maxVms : Nat
  maxVmRam : Nat
  temperatureType : TemperatureType
  temperatureFields : List String
  hasInternalStorage : Bool
  maxEthernetSpeed : Nat
  maxDownloadSpeed : Nat
  maxUploadSpeed : Nat
deriving DecidableEq, Repr

/-- The `MODEL_CAPABILITIES` table from `capabilities.ts`. -/
def MODEL_CAPABILITIES : FreeboxModel → ModelBaseCapabilities
  | .ultra =>
    { model := .ultra, wifi6ghz := true, wifi7 := true, vmSupport := .full,
      maxVms := 10, maxVmRam := 16, temperatureType := .quad_core,
      temperatureFields := ["temp_cpu0", "temp_cpu1", "temp_cpu2", "temp_cpu3"],
      hasInternalStorage := false, maxEthernetSpeed := 10000,
      maxDownloadSpeed := 8000, maxUploadSpeed := 8000 }
  | .delta =>
    { model := .delta, wifi6ghz := true, wifi7 := false, vmSupport := .limited,
      maxVms := 3, maxVmRam := 16, temperatureType := .legacy,
      temperatureFields := ["temp_cpum", "temp_sw", "temp_cpub"],
      hasInternalStorage := true, maxEthernetSpeed := 10000,
      maxDownloadSpeed := 8000, maxUploadSpeed := 700 }
  | .pop =>
    { model := .pop, wifi6ghz := false, wifi7 := true, vmSupport := .none,
      maxVms := 0, maxVmRam := 0, temperatureType := .legacy,
      temperatureFields := ["temp_cpum", "temp_sw", "temp_cpub"],
      hasInternalStorage := false, maxEthernetSpeed := 2500,
      maxDownloadSpeed := 5000, maxUploadSpeed := 700 }
  | .revolution =>
    { model := .revolution, wifi6ghz := false, wifi7 := false, vmSupport := .none,
      maxVms := 0, maxVmRam := 0, temperatureType := .legacy,
      temperatureFields := ["temp_cpum", "temp_sw", "temp_cpub"],
      hasInternalStorage := true, maxEthernetSpeed := 1000,
      maxDownloadSpeed := 1000, maxUploadSpeed := 600 }
  | .unknown =>
    { model := .unknown, wifi6ghz := false, wifi7 := false, vmSupport := .none,
      maxVms := 0, maxVmRam := 0, temperatureType := .legacy,
      temperatureFields := ["temp_cpum", "temp_sw", "temp_cpub"],
      hasInternalStorage := false, maxEthernetSpeed := 1000,
      maxDownloadSpeed := 1000, maxUploadSpeed := 600 }

/-- `detectModelFromName` from `capabilities.ts`: ordered substring matching
on the lowercased model-name string. -/
def detectModelFromName (modelName : String) : FreeboxModel :=
  let lower := lowerStr modelName
  if containsStr lower "v9" || containsStr lower "ultra" then .ultra
  else if containsStr lower "pop" then .pop
  else if containsStr lower "v8" || containsStr lower "delta" || containsStr lower "fbxgw8" then .delta
  else if containsStr lower "v6" || containsStr lower "revolution" ||
          containsStr lower "r√©volution" || containsStr lower "fbxgw1" then .revolution
  else if containsStr lower "v7" || containsStr lower "mini" || containsStr lower "fbxgw7" then .revolution
  else .unknown

/-- `buildCapabilities` from `capabilities.ts`: overlay the static family
table with the runtime display name and box flavor; `hasInternalStorage`
is recomputed from the flavor. -/
def buildCapabilities (model : FreeboxModel) (modelName : String)
    (boxFlavor : BoxFlavor) : FreeboxCapabilities :=
  let base := MODEL_CAPABILITIES model
  { model := base.model, modelName := modelName, boxFlavor := boxFlavor,
    wifi6ghz := base.wifi6ghz, wifi7 := base.wifi7, vmSupport := base.vmSupport,
    maxVms := base.maxVms, maxVmRam := base.maxVmRam,
    temperatureType := base.temperatureType,
    temperatureFields := base.temperatureFields,
    hasInternalStorage := boxFlavor == .full,
    maxEthernetSpeed := base.maxEthernetSpeed,
    maxDownloadSpeed := base.maxDownloadSpeed,
    maxUploadSpeed := base.maxUploadSpeed }

end Freebox

namespace Freebox

/-- The `{success, result?, error_code?, msg?}` envelope
(`FreeboxApiResponse` in `freeboxApi.ts`). -/
structure FreeboxApiResponse (T : Type) where
  success : Bool
  result : Option T := Option.none
  error_code : Option String := Option.none
  msg : Option String := Option.none
deriving DecidableEq, Repr

/-- Outcome of one HTTP exchange with the appliance, as seen by
`FreeboxApiService.request`:
* `fetchError` — `fetch` rejected (network unreachable, or the
  request-timeout `AbortController` fired);
* `httpResponse` — a response arrived, with its `content-type` header,
  status code, and the result of `response.json()` (`Except.error` when the
  body is not parseable JSON, which makes `response.json()` reject). -/
inductive NetOutcome (T : Type) where
  | fetchError (msg : String)
  | httpResponse (contentType : Option String) (status : Nat)
      (body : Except String (FreeboxApiResponse T))

/-- The content-type test on line 130 of `freeboxApi.ts`:
`!contentType || !contentType.includes('application/json')` (negated). -/
def contentTypeIsJson : Option String → Bool
  | Option.none => false
  | some ct => containsStr ct "application/json"

/-- In-memory state of the `FreeboxApiService` singleton. -/
structure ServiceState where
  appToken : Option String := Option.none
  sessionToken : Option String := Option.none
  challenge : Option String := Option.none
  permissions : List (String × Bool) := []
deriving DecidableEq, Repr

/-- The `X-Fbx-App-Auth` header value attached by `request`
(lines 111–113): present only when `authenticated` is requested *and* a
session token exists; otherwise the request is sent without it. -/
def requestAuthHeader (st : ServiceState) (authenticated : Bool) : Option String :=
  if authenticated then st.sessionToken else Option.none

/-- `FreeboxApiService.request` (lines 100–151).  The body performs the
fetch unconditionally (there is no check of `sessionToken` beyond the
header logic above) and maps the exchange outcome to an envelope:
fetch rejection → `request_failed`; non-JSON content type →
`invalid_response`; JSON body parse failure (caught by the same `catch`)
→ `request_failed`; otherwise the parsed envelope is returned as-is.
It never throws: every outcome yields an envelope value.
`st` and `authenticated` affect only the outgoing headers
(`requestAuthHeader`), never the returned value. -/
def request {T : Type} (st : ServiceState) (authenticated : Bool)
    (out : NetOutcome T) : FreeboxApiResponse T :=
  let _headers := requestAuthHeader st authenticated
  match out with
  | .fetchError m =>
    { success := false, error_code := some "request_failed", msg := some m }
  | .httpResponse ct status body =>
    if contentTypeIsJson ct then
      match body with
      | .ok data => data
      | .error e =>
        { success := false, error_code := some "request_failed", msg := some e }
    else
      { success := false, error_code := some "invalid_response",
        msg := some ("API returned non-JSON response (" ++ toString status ++ ")") }

/-- JavaScript `a || b` on an optional string `a` (both `null`/`undefined`
and the empty string are falsy). -/
def jsOrStr (o : Option String) (d : String) : String :=
  match o with
  | some m => if m = "" then d else m
  | Option.none => d

/-- JavaScript `a || b || c` on two optional strings. -/
def jsOrStr2 (o₁ o₂ : Option String) (d : String) : String :=
  jsOrStr o₁ (jsOrStr o₂ d)

end Freebox

namespace Freebox

/-! ### Token persistence (`loadToken` / `saveToken`)

The token file holds `JSON.stringify({ appToken }, null, 2)`.  We model
the serializer (including JSON string escaping) and the
`JSON.parse(...).appToken` read restricted to the single-key document
shape the saver produces; anything else decodes to `none`, as the
`try/catch` in `loadToken` treats unparseable files as "no token". -/

/-- Lowercase hexadecimal digit, as produced by the JavaScript JSON
serializer's unicode escapes. -/
def toHexDigitChar (n : Nat) : Char :=
  if n < 10 then Char.ofNat (48 + n) else Char.ofNat (87 + n)

/-- JSON escaping of one character, as in `JSON.stringify` string quoting:
quote, backslash and the named control escapes get two-character escapes,
the remaining control characters get `\u00xx`, everything else is emitted
verbatim. -/
def jsonEscapeChar (c : Char) : List Char :=
  if c = '"' then ['\\', '"']
  else if c = '\\' then ['\\', '\\']
  else if c = Char.ofNat 8 then ['\\', 'b']
  else if c = Char.ofNat 9 then ['\\', 't']
  else if c = Char.ofNat 10 then ['\\', 'n']
  else if c = Char.ofNat 12 then ['\\', 'f']
  else if c = Char.ofNat 13 then ['\\', 'r']
  else if c.toNat < 32 then
    ['\\', 'u', '0', '0', toHexDigitChar (c.toNat / 16), toHexDigitChar (c.toNat % 16)]
  else [c]

/-- JSON escaping of a character sequence. -/
def jsonEscape : List Char → List Char
  | [] => []
  | c :: cs => jsonEscapeChar c ++ jsonEscape cs

/-- The exact file content written by `saveToken`:
`JSON.stringify({ appToken }, null, 2)`. -/
def encodeTokenFile (appToken : String) : String :=
  ⟨"\x7b\n  \"appToken\": \"".data ++ jsonEscape appToken.data ++ "\"\n\x7d".data⟩

/-- Hex-digit value (JSON `\uXXXX` escapes accept both cases). -/
def fromHexDigitChar (c : Char) : Option Nat :=
  if '0' ≤ c ∧ c ≤ '9' then some (c.toNat - 48)
  else if 'a' ≤ c ∧ c ≤ 'f' then some (c.toNat - 87)
  else if 'A' ≤ c ∧ c ≤ 'F' then some (c.toNat - 55)
  else Option.none

/-- JSON string-literal body parser (after the opening quote): returns the
decoded characters and the rest of the input after the closing quote.
Mirrors `JSON.parse`'s string grammar: raw control characters are
rejected, the named escapes and `\uXXXX` are decoded.  (Surrogate-pair
recombination is not modelled; the serializer under verification never
emits surrogate escapes.) -/
def parseJsonStringBody : List Char → Option (List Char × List Char)
  | [] => Option.none
  | c :: rest =>
    if c = '"' then some ([], rest)
    else if c = '\\' then
      match rest with
      | [] => Option.none
      | e :: r =>
        if e = '"' then (parseJsonStringBody r).map (fun p => ('"' :: p.1, p.2))
        else if e = '\\' then (parseJsonStringBody r).map (fun p => ('\\' :: p.1, p.2))
        else if e = '/' then (parseJsonStringBody r).map (fun p => ('/' :: p.1, p.2))
        else if e = 'b' then (parseJsonStringBody r).map (fun p => (Char.ofNat 8 :: p.1, p.2))
        else if e = 'f' then (parseJsonStringBody r).map (fun p => (Char.ofNat 12 :: p.1, p.2))
        else if e = 'n' then (parseJsonStringBody r).map (fun p => (Char.ofNat 10 :: p.1, p.2))
        else if e = 'r' then (parseJsonStringBody r).map (fun p => (Char.ofNat 13 :: p.1, p.2))
        else if e = 't' then (parseJsonStringBody r).map (fun p => (Char.ofNat 9 :: p.1, p.2))
        else if e = 'u' then
          match r with
          | h1 :: h2 :: h3 :: h4 :: r2 =>
            match fromHexDigitChar h1, fromHexDigitChar h2,
                  fromHexDigitChar h3, fromHexDigitChar h4 with
            | some d1, some d2, some d3, some d4 =>
              (parseJsonStringBody r2).map
                (fun p => (Char.ofNat (((d1 * 16 + d2) * 16 + d3) * 16 + d4) :: p.1, p.2))
            | _, _, _, _ => Option.none
          | _ => Option.none
        else Option.none
    else if c.toNat < 32 then Option.none
    else (parseJsonStringBody rest).map (fun p => (c :: p.1, p.2))

/-- Skip JSON insignificant whitespace (space, tab, newline, carriage
return). -/
def skipJsonWs : List Char → List Char
  | [] => []
  | c :: rest =>
    if c = ' ' ∨ c = Char.ofNat 9 ∨ c = Char.ofNat 10 ∨ c = Char.ofNat 13 then
      skipJsonWs rest
    else c :: rest

/-- Consume an exact literal prefix. -/
def dropLit : List Char → List Char → Option (List Char)
  | [], l => some l
  | _ :: _, [] => Option.none
  | p :: ps, c :: cs => if p = c then dropLit ps cs else Option.none

/-- Closing steps of the token-document parse: after the value string,
expect `}` (possibly surrounded by whitespace) and the end of input, and
rebuild the decoded token. -/
def finishTokenDoc : Option (List Char × List Char) → Option String
  | some (tok, r5) =>
    match skipJsonWs r5 with
    | '}' :: r6 => if skipJsonWs r6 = [] then some ⟨tok⟩ else Option.none
    | _ => Option.none
  | Option.none => Option.none

/-- `JSON.parse(content).appToken` restricted to the
`{ "appToken": <string> }` document shape that `saveToken` writes; any
other content yields `none` (as does `loadToken`'s `catch`). -/
def decodeTokenFile (s : String) : Option String :=
  match skipJsonWs s.data with
  | '{' :: r =>
    match dropLit "\"appToken\"".data (skipJsonWs r) with
    | some r2 =>
      match skipJsonWs r2 with
      | ':' :: r3 =>
        match skipJsonWs r3 with
        | '"' :: r4 => finishTokenDoc (parseJsonStringBody r4)
        | _ => Option.none
      | _ => Option.none
    | Option.none => Option.none
  | _ => Option.none

/-- The state of the configured token-file location: whether the parent
directory exists, and the file content (if the file exists). -/
structure TokenFs where
  dirExists : Bool := false
  file : Option String := Option.none
deriving DecidableEq, Repr

/-- `FreeboxApiService.saveToken` (lines 80–90): create the parent
directory if missing, then write the serialized document. -/
def saveTokenFs (fs : TokenFs) (appToken : String) : TokenFs :=
  let _ := fs
  { dirExists := true, file := some (encodeTokenFile appToken) }

/-- `FreeboxApiService.loadToken` (lines 63–77), as done at process start:
if the file exists, parse it and extract `appToken`; a missing or
unparseable file yields no token. -/
def loadTokenFs (fs : TokenFs) : Option String :=
  match fs.file with
  | some content => decodeTokenFile content
  | Option.none => Option.none

end Freebox

namespace Freebox

/-! ### HMAC-SHA1 (`computePassword`)

`crypto.createHmac('sha1', appToken).update(challenge).digest('hex')`,
with strings encoded as UTF-8. -/

/-- UTF-8 encoding of one scalar value. -/
def utf8EncodeChar (c : Char) : List Nat :=
  let n := c.toNat
  if n < 128 then [n]
  else if n < 2048 then [192 + n / 64, 128 + n % 64]
  else if n < 65536 then [224 + n / 4096, 128 + n / 64 % 64, 128 + n % 64]
  else [240 + n / 262144, 128 + n / 4096 % 64, 128 + n / 64 % 64, 128 + n % 64]

/-- UTF-8 encoding of a string, as a byte list. -/
def utf8Encode (s : String) : List Nat :=
  (s.data.map utf8EncodeChar).flatten

/-- Truncate to a 32-bit word. -/
def w32 (n : Nat) : Nat := n % 4294967296

/-- 32-bit left rotation (for `0 < k < 32`). -/
def rotl32 (k x : Nat) : Nat := w32 (x * 2 ^ k + x / 2 ^ (32 - k))

/-- Big-endian 4-byte encoding of a 32-bit word. -/
def be4 (n : Nat) : List Nat :=
  [n / 16777216 % 256, n / 65536 % 256, n / 256 % 256, n % 256]

/-- SHA-1 padding: append `0x80`, zero bytes to 56 mod 64, then the
64-bit big-endian bit length. -/
def sha1Pad (msg : List Nat) : List Nat :=
  let len := msg.length
  let k := (56 + 64 - (len + 1) % 64) % 64
  let bitLen := 8 * len
  msg ++ 128 :: List.replicate k 0 ++
    [bitLen / 2 ^ 56 % 256, bitLen / 2 ^ 48 % 256, bitLen / 2 ^ 40 % 256,
     bitLen / 2 ^ 32 % 256, bitLen / 2 ^ 24 % 256, bitLen / 2 ^ 16 % 256,
     bitLen / 2 ^ 8 % 256, bitLen % 256]

/-- Split a byte list into 64-byte blocks. -/
def toBlocks : List Nat → List (List Nat)
  | [] => []
  | c :: cs => (c :: cs).take 64 :: toBlocks ((c :: cs).drop 64)
termination_by l => l.length
decreasing_by simp [List.length_drop]; omega

/-- Big-endian 32-bit words from a byte list. -/
def toWords : List Nat → List Nat
  | b0 :: b1 :: b2 :: b3 :: rest =>
    (((b0 * 256 + b1) * 256 + b2) * 256 + b3) :: toWords rest
  | _ => []

/-- SHA-1 compression of one 64-byte block into the running state. -/
def sha1Block (h : Nat × Nat × Nat × Nat × Nat) (block : List Nat) :
    Nat × Nat × Nat × Nat × Nat :=
  let w : Array Nat :=
    (List.range 64).foldl
      (fun w _ =>
        w.push (rotl32 1
          (w.getD (w.size - 3) 0 ^^^ w.getD (w.size - 8) 0 ^^^
           w.getD (w.size - 14) 0 ^^^ w.getD (w.size - 16) 0)))
      (toWords block).toArray
  let (h0, h1, h2, h3, h4) := h
  let (a, b, c, d, e) :=
    (List.range 80).foldl
      (fun (st : Nat × Nat × Nat × Nat × Nat) i =>
        let (a, b, c, d, e) := st
        let f :=
          if i < 20 then (b &&& c) ||| ((4294967295 - b) &&& d)
          else if i < 40 then b ^^^ c ^^^ d
          else if i < 60 then (b &&& c) ||| (b &&& d) ||| (c &&& d)
          else b ^^^ c ^^^ d
        let k :=
          if i < 20 then 1518500249
          else if i < 40 then 1859775393
          else if i < 60 then 2400959708
          else 3395469782
        let temp := w32 (rotl32 5 a + f + e + k + w.getD i 0)
        (temp, a, rotl32 30 b, c, d))
      (h0, h1, h2, h3, h4)
  (w32 (h0 + a), w32 (h1 + b), w32 (h2 + c), w32 (h3 + d), w32 (h4 + e))

/-- SHA-1 of a byte list, as a 20-byte digest. -/
def sha1 (msg : List Nat) : List Nat :=
  let (h0, h1, h2, h3, h4) :=
    (toBlocks (sha1Pad msg)).foldl sha1Block
      (1732584193, 4023233417, 2562383102, 271733878, 3285377520)
  be4 h0 ++ be4 h1 ++ be4 h2 ++ be4 h3 ++ be4 h4

/-- HMAC-SHA1 over byte lists (block size 64). -/
def hmacSha1 (key msg : List Nat) : List Nat :=
  let key := if key.length > 64 then sha1 key else key
  let key := key ++ List.replicate (64 - key.length) 0
  sha1 ((key.map (fun b => b ^^^ 92)) ++ sha1 ((key.map (fun b => b ^^^ 54)) ++ msg))

/-- Lowercase hexadecimal rendering of a byte list. -/
def bytesToHex (l : List Nat) : String :=
  ⟨(l.map (fun b => [toHexDigitChar (b / 16 % 16), toHexDigitChar (b % 16)])).flatten⟩

/-- `crypto.createHmac('sha1', key).update(msg).digest('hex')` on strings. -/
def hmacSha1Hex (key msg : String) : String :=
  bytesToHex (hmacSha1 (utf8Encode key) (utf8Encode msg))

end Freebox


namespace Freebox

/-! ### Authentication session manager (`FreeboxApiService`, part_003)

Each operation takes the outcome of the network exchanges it may perform
as explicit oracle arguments, returns `Except.error` where the TypeScript
method `throw`s, and additionally reports how many network calls it
actually issued. -/

/-- Payload of `POST /login/authorize/`. -/
structure RegisterResult where
  app_token : String
  track_id : Nat
deriving DecidableEq, Repr

/-- Payload of `GET /login/authorize/{trackId}`. -/
structure TrackStatusResult where
  status : String
  challenge : Option String := Option.none
deriving DecidableEq, Repr

/-- Payload of `GET /login/`. -/
structure ChallengeResult where
  logged_in : Bool
  challenge : String
deriving DecidableEq, Repr

/-- Payload of `POST /login/session/`. -/
structure SessionResult where
  session_token : String
  challenge : String
  permissions : List (String × Bool)
deriving DecidableEq, Repr

/-- `SessionData` returned by `login`. -/
structure SessionData where
  sessionToken : String
  challenge : String
  permissions : List (String × Bool)
deriving DecidableEq, Repr

/-- `FreeboxApiService.register` (lines 164–188): POST the application
identity; on an unsuccessful or empty envelope, `throw` with the
envelope's message (or the fixed fallback); on success, persist the new
`app_token` via `saveToken` (which also updates the in-memory token) and
return the tracking id and token. -/
def register (st : ServiceState) (fs : TokenFs)
    (out : NetOutcome RegisterResult) :
    Except String (ServiceState × TokenFs × RegisterResult) × Nat :=
  let resp := request st false out
  match resp.success, resp.result with
  | true, some r =>
    (.ok ({ st with appToken := some r.app_token }, saveTokenFs fs r.app_token, r), 1)
  | _, _ => (.error (jsOrStr resp.msg "Registration failed"), 1)

/-- `FreeboxApiService.checkRegistrationStatus` (lines 191–209): poll the
registration status; `throw` on an unsuccessful or empty envelope; record
the challenge in memory when the payload carries a (non-empty) one. -/
def checkRegistrationStatus (st : ServiceState) (_trackId : Nat)
    (out : NetOutcome TrackStatusResult) :
    Except String (ServiceState × TrackStatusResult) × Nat :=
  let resp := request st false out
  match resp.success, resp.result with
  | true, some r =>
    let st' :=
      match r.challenge with
      | some c => if c = "" then st else { st with challenge := some c }
      | Option.none => st
    (.ok (st', r), 1)
  | _, _ => (.error (jsOrStr resp.msg "Failed to check registration status"), 1)

/-- `FreeboxApiService.getChallenge` (lines 212–224): fetch `GET /login/`;
`throw` on an unsuccessful or empty envelope; store and return the fresh
challenge. -/
def getChallenge (st : ServiceState) (out : NetOutcome ChallengeResult) :
    Except String (ServiceState × String) × Nat :=
  let resp := request st false out
  match resp.success, resp.result with
  | true, some r => (.ok ({ st with challenge := some r.challenge }, r.challenge), 1)
  | _, _ => (.error (jsOrStr resp.msg "Failed to get challenge"), 1)

/-- `FreeboxApiService.computePassword` (lines 153–159): `throw` when no
`app_token` is held, otherwise the HMAC-SHA1 hex digest of the challenge
keyed by the token. -/
def computePassword (st : ServiceState) (challenge : String) : Except String String :=
  match st.appToken with
  | Option.none => .error "No app_token available"
  | some tok => .ok (hmacSha1Hex tok challenge)

/-- `FreeboxApiService.login` (lines 227–271): `throw` immediately (before
any network call) when no `app_token` is held; otherwise fetch a fresh
challenge (first network call), `throw` if it is missing/empty, compute
the password, and open the session (second network call); `throw` with
the envelope's message/error code on an unsuccessful or empty envelope;
on success store session token, rolling challenge and permissions. -/
def login (st : ServiceState) (chalOut : NetOutcome ChallengeResult)
    (sessOut : NetOutcome SessionResult) :
    Except String (ServiceState × SessionData) × Nat :=
  match st.appToken with
  | Option.none => (.error "No app_token available. Please register first.", 0)
  | some _ =>
    match getChallenge st chalOut with
    | (.error e, n) => (.error e, n)
    | (.ok (st₁, _), n) =>
      match st₁.challenge with
      | Option.none => (.error "No challenge available", n)
      | some ch =>
        if ch = "" then (.error "No challenge available", n)
        else
          match computePassword st₁ ch with
          | .error e => (.error e, n)
          | .ok _password =>
            let resp := request st₁ false sessOut
            match resp.success, resp.result with
            | true, some r =>
              (.ok ({ st₁ with
                        sessionToken := some r.session_token,
                        challenge := some r.challenge,
                        permissions := r.permissions },
                    { sessionToken := r.session_token, challenge := r.challenge,
                      permissions := r.permissions }), n + 1)
            | _, _ => (.error (jsOrStr2 resp.msg resp.error_code "Login failed"), n + 1)

/-- `FreeboxApiService.logout` (lines 274–280): the guard is the JS
truthiness test `if (this.sessionToken)` — both `null` and the empty
string are falsy.  When the session token is truthy, call the
session-close endpoint (ignoring its result — `request` never throws)
and clear the in-memory session token; otherwise (no token, or an empty
token) do nothing. -/
def logout (st : ServiceState) (out : NetOutcome Unit) : ServiceState × Nat :=
  match st.sessionToken with
  | some s =>
    if s = "" then (st, 0)
    else
      let _ := request st true out
      ({ st with sessionToken := Option.none }, 1)
  | Option.none => (st, 0)

/-- `FreeboxApiService.isLoggedIn` (lines 298–300). -/
def isLoggedIn (st : ServiceState) : Bool := st.sessionToken.isSome

/-- `FreeboxApiService.isRegistered` (lines 293–295). -/
def isRegistered (st : ServiceState) : Bool := st.appToken.isSome

/-- `FreeboxApiService.getPermissions` (lines 302–305). -/
def getPermissions (st : ServiceState) : List (String × Bool) := st.permissions

end Freebox

namespace Freebox

/-! ### Model detection service (part_002) -/

/-- Payload of the unauthenticated `/api_version` call
(`ApiVersionResponse`). -/
structure ApiVersionResponse where
  box_model_name : Option String := Option.none
  box_model : Option String := Option.none
  box_flavor : Option String := Option.none
  device_name : Option String := Option.none
deriving DecidableEq, Repr

/-- The `MOCK_MODEL_NAMES` table: synthetic display name and flavor per
family. -/
def MOCK_MODEL_NAMES : FreeboxModel → String × BoxFlavor
  | .ultra => ("Freebox v9 (r1)", .full)
  | .delta => ("Freebox v8 (Delta)", .full)
  | .pop => ("Freebox Pop", .light)
  | .revolution => ("Freebox v6 (Revolution)", .full)
  | .unknown => ("Freebox", .light)

/-- The mock-mode guard on lines 74–75 of the detection service:
`process.env.MOCK_FREEBOX_MODEL?.toLowerCase()` looked up among the keys
of `MOCK_MODEL_NAMES` (an unset variable, the empty string, and any
non-key value all fail the guard). -/
def parseMockEnv : Option String → Option FreeboxModel
  | Option.none => Option.none
  | some s =>
    let l := lowerStr s
    if l = "ultra" then some .ultra
    else if l = "delta" then some .delta
    else if l = "pop" then some .pop
    else if l = "revolution" then some .revolution
    else if l = "unknown" then some .unknown
    else Option.none

/-- `ModelDetectionService.buildDefaultCapabilities` (lines 129–134). -/
def buildDefaultCapabilities : FreeboxCapabilities :=
  buildCapabilities .unknown "Freebox" .light

/-- The JavaScript fallback chain
`box_model_name || box_model || device_name || 'Unknown'`. -/
def modelNameOf (v : ApiVersionResponse) : String :=
  jsOrStr v.box_model_name (jsOrStr v.box_model (jsOrStr v.device_name "Unknown"))

/-- `ModelDetectionService._performDetection` (lines 72–124).
`mockEnv` is the value of `MOCK_FREEBOX_MODEL`; `apiCallOutcome` is the
outcome of `freeboxApi.getApiVersion()` — `Except.error` models any error
thrown inside the `try` block (absorbed by the `catch`), `Except.ok` the
returned envelope.  The result type carries no error case: the function
is total, every failure path lands in `buildDefaultCapabilities`. -/
def performDetection (mockEnv : Option String)
    (apiCallOutcome : Except String (FreeboxApiResponse ApiVersionResponse)) :
    FreeboxCapabilities :=
  match parseMockEnv mockEnv with
  | some m =>
    let mock := MOCK_MODEL_NAMES m
    buildCapabilities m mock.1 mock.2
  | Option.none =>
    match apiCallOutcome with
    | .error _ => buildDefaultCapabilities
    | .ok apiVersion =>
      match apiVersion.success, apiVersion.result with
      | true, some versionData =>
        let modelName := modelNameOf versionData
        let boxFlavor : BoxFlavor :=
          if versionData.box_flavor = some "full" then .full else .light
        buildCapabilities (detectModelFromName modelName) modelName boxFlavor
      | _, _ => buildDefaultCapabilities

end Freebox

deriving instance DecidableEq for Except

namespace Freebox

/-- The expected failure modes of one appliance exchange, as enumerated
by the spec: appliance unreachable or timeout (`fetchError`), a non-JSON
or wrong-content-type response, an unparseable JSON body, or a
well-formed envelope reporting failure. -/
def expectedFailure {T : Type} : NetOutcome T → Prop
  | .fetchError _ => True
  | .httpResponse ct _ body =>
    contentTypeIsJson ct = false ∨ (∃ e, body = .error e) ∨
      (∃ r, body = .ok r ∧ r.success = false)

/-- A modelled JavaScript `throw`. -/
def isThrown {β : Type} : Except String β → Bool
  | .error _ => true
  | .ok _ => false

/-- A successful challenge exchange handing out challenge `ch`
(JSON response, `success: true`). -/
def goodChallenge (ch : String) : NetOutcome ChallengeResult :=
  .httpResponse (some "application/json") 200
    (.ok { success := true, result := some { logged_in := false, challenge := ch } })

end Freebox

namespace Freebox

/-! ### Helper lemmas -/

lemma char_ofNat_toNat_small (c : Char) (h : c.toNat < 55296) :
    Char.ofNat c.toNat = c := by
  have hv : c.toNat.isValidChar := Or.inl h
  apply Char.ext
  simp only [Char.ofNat]
  rw [dif_pos hv]
  apply UInt32.ext
  simp [Char.ofNatAux, UInt32.ofNat', Char.toNat, UInt32.toNat]

lemma fromHex_toHex : ∀ d : Nat, d < 16 →
    fromHexDigitChar (toHexDigitChar d) = some d := by decide

lemma fromHex_zero : fromHexDigitChar '0' = some 0 := by decide

end Freebox

namespace Freebox

/-! ### Claim theorems -/

/-- C8: the hardware-identification string "Freebox Pop" classifies to the
`pop` family, whose static capability record has `vmSupport = none`,
`maxVms = 0` and `wifi6ghz = false`. -/
theorem c8_pop_end_to_end :
    detectModelFromName "Freebox Pop" = .pop ∧
    (MODEL_CAPABILITIES .pop).vmSupport = .none ∧
    (MODEL_CAPABILITIES .pop).maxVms = 0 ∧
    (MODEL_CAPABILITIES .pop).wifi6ghz = false := by decide

/-- C1: classification by `detectModelFromName` is order-sensitive in
favour of the newer/more-specific family.  First conjunct: any identifier
containing a `pop` marker together with an older delta-family marker
(`fbxgw8` or `v8`) — and, making "the newer family" be `pop`, no marker
of the still-newer ultra family (`v9`/`ultra`) — classifies as `pop`,
not `delta`.  Second conjunct: an identifier containing `pop` never
classifies as `delta`, whatever else it contains.  Third conjunct: a
string matching no known marker classifies as `unknown`. -/
theorem c1_ordered_classification :
    (∀ s : String,
      containsStr (lowerStr s) "pop" = true →
      (containsStr (lowerStr s) "fbxgw8" = true ∨ containsStr (lowerStr s) "v8" = true) →
      containsStr (lowerStr s) "v9" = false →
      containsStr (lowerStr s) "ultra" = false →
      detectModelFromName s = .pop) ∧
    (∀ s : String, containsStr (lowerStr s) "pop" = true →
      detectModelFromName s ≠ .delta) ∧
    (∀ s : String,
      containsStr (lowerStr s) "v9" = false →
      containsStr (lowerStr s) "ultra" = false →
      containsStr (lowerStr s) "pop" = false →
      containsStr (lowerStr s) "v8" = false →
      containsStr (lowerStr s) "delta" = false →
      containsStr (lowerStr s) "fbxgw8" = false →
      containsStr (lowerStr s) "v6" = false →
      containsStr (lowerStr s) "revolution" = false →
      containsStr (lowerStr s) "r√©volution" = false →
      containsStr (lowerStr s) "fbxgw1" = false →
      containsStr (lowerStr s) "v7" = false →
      containsStr (lowerStr s) "mini" = false →
      containsStr (lowerStr s) "fbxgw7" = false →
      detectModelFromName s = .unknown) := by
  refine ⟨?_, ?_, ?_⟩
  · intro s hpop hdelta h9 hu
    simp [detectModelFromName, hpop, h9, hu]
  · intro s hpop
    cases h9 : containsStr (lowerStr s) "v9" <;>
      cases hu : containsStr (lowerStr s) "ultra" <;>
        simp [detectModelFromName, hpop, h9, hu]
  · intro s h9 hu hpop h8 hd hg8 h6 hr hr2 hg1 h7 hm hg7
    simp [detectModelFromName, h9, hu, hpop, h8, hd, hg8, h6, hr, hr2, hg1, h7, hm, hg7]

/-- Witness for C1 at concrete inputs: "fbxgw8-pop" (a pop marker next to
a delta-family marker) classifies as `pop`; "toto" matches no marker and
classifies as `unknown`. -/
theorem c1_witness :
    detectModelFromName "fbxgw8-pop" = .pop ∧
    detectModelFromName "toto" = .unknown :=
  ⟨c1_ordered_classification.1 "fbxgw8-pop" (by decide) (Or.inl (by decide))
      (by decide) (by decide),
   c1_ordered_classification.2.2 "toto" (by decide) (by decide) (by decide)
      (by decide) (by decide) (by decide) (by decide) (by decide) (by decide)
      (by decide) (by decide) (by decide) (by decide)⟩

/-- C6: an appliance response whose content type is not JSON makes
`request` resolve to a failure envelope carrying the distinct
`invalid_response` error code — the body is never parsed, so no parse
exception can escape. -/
theorem c6_invalid_response (T : Type) (st : ServiceState) (authenticated : Bool)
    (ct : Option String) (status : Nat) (body : Except String (FreeboxApiResponse T))
    (h : contentTypeIsJson ct = false) :
    request st authenticated (.httpResponse ct status body) =
      { success := false, result := Option.none,
        error_code := some "invalid_response",
        msg := some ("API returned non-JSON response (" ++ toString status ++ ")") } := by
  simp [request, h]

/-- Witness for C6: a concrete HTML error page (content type
`text/html`, status 404) yields the `invalid_response` envelope. -/
theorem c6_witness :
    request (T := Unit) {} true (.httpResponse (some "text/html") 404 (.error "x")) =
      { success := false, result := Option.none,
        error_code := some "invalid_response",
        msg := some ("API returned non-JSON response (" ++ toString 404 ++ ")") } :=
  c6_invalid_response Unit {} true (some "text/html") 404 (.error "x") (by decide)

/-- C9: `computePassword` is a function of the stored application token
and the challenge only: any two states holding the same token produce the
same result on the same challenge, and that result is the HMAC-SHA1 hex
digest of the challenge keyed by the token (so two evaluations with the
same stored token always yield the identical digest). -/
theorem c9_computePassword_deterministic (s₁ s₂ : ServiceState)
    (tok challenge : String)
    (h₁ : s₁.appToken = some tok) (h₂ : s₂.appToken = some tok) :
    computePassword s₁ challenge = computePassword s₂ challenge ∧
    computePassword s₁ challenge = .ok (hmacSha1Hex tok challenge) := by
  unfold computePassword
  rw [h₁, h₂]
  exact ⟨rfl, rfl⟩

/-- Witness for C9 at a concrete token and challenge. -/
theorem c9_witness :
    computePassword { appToken := some "tok" } "challenge" =
      .ok (hmacSha1Hex "tok" "challenge") :=
  (c9_computePassword_deterministic { appToken := some "tok" }
    { appToken := some "tok" } "tok" "challenge" rfl rfl).2

end Freebox

namespace Freebox

/-- C4: when mock mode is off and capability detection fails — the
version/info call returns an unsuccessful or empty envelope, or anything
in the detection body throws (network failure, malformed response) —
`performDetection` returns the fully-populated default capabilities
record of the `unknown` family.  The function's result type has no error
case: no failure is propagated to the caller. -/
theorem c4_detection_failure_defaults (mockEnv : Option String)
    (outcome : Except String (FreeboxApiResponse ApiVersionResponse))
    (hmock : parseMockEnv mockEnv = Option.none)
    (hfail : ∀ r, outcome = .ok r → r.success = false ∨ r.result = Option.none) :
    performDetection mockEnv outcome =
      { model := .unknown, modelName := "Freebox", boxFlavor := .light,
        wifi6ghz := false, wifi7 := false, vmSupport := .none, maxVms := 0,
        maxVmRam := 0, temperatureType := .legacy,
        temperatureFields := ["temp_cpum", "temp_sw", "temp_cpub"],
        hasInternalStorage := false, maxEthernetSpeed := 1000,
        maxDownloadSpeed := 1000, maxUploadSpeed := 600 } := by
  unfold performDetection
  rw [hmock]
  cases outcome with
  | error e => rfl
  | ok r =>
    rcases hfail r rfl with hs | hr
    · cases hres : r.result <;> simp [hs, hres] <;> rfl
    · cases hsu : r.success <;> simp [hsu, hr] <;> rfl

/-- Witness for C4: with no mock override, a thrown network error and an
explicit failure envelope both land on the default record. -/
theorem c4_witness :
    performDetection Option.none (.error "network down") =
      { model := .unknown, modelName := "Freebox", boxFlavor := .light,
        wifi6ghz := false, wifi7 := false, vmSupport := .none, maxVms := 0,
        maxVmRam := 0, temperatureType := .legacy,
        temperatureFields := ["temp_cpum", "temp_sw", "temp_cpub"],
        hasInternalStorage := false, maxEthernetSpeed := 1000,
        maxDownloadSpeed := 1000, maxUploadSpeed := 600 } :=
  c4_detection_failure_defaults Option.none (.error "network down") rfl
    (fun r h => by cases h)

/-- C5 counterexample: with the override set to `ultra`, detection does
bypass the live call, but the returned record is *not* the `ultra`
family's static capability table verbatim: `hasInternalStorage` is
recomputed from the mock flavor (`full`) as `true`, while the static
table says `false`; and the synthetic display name is the plain
"Freebox v9 (r1)", carrying no mock marker. -/
theorem c5_counterexample :
    (performDetection (some "ultra") (.error "net down")).hasInternalStorage = true ∧
    (MODEL_CAPABILITIES .ultra).hasInternalStorage = false ∧
    (performDetection (some "ultra") (.error "net down")).modelName = "Freebox v9 (r1)" ∧
    containsStr (performDetection (some "ultra") (.error "net down")).modelName "MOCK" = false := by
  decide

/-- C5 as amended: for every value of `MOCK_FREEBOX_MODEL` naming a known
family (any capitalisation), detection ignores the live-call outcome
entirely (any two outcomes give the same result) and returns
`buildCapabilities` of that family's static table with the fixed
synthetic display name and flavor from `MOCK_MODEL_NAMES`: all static
fields are returned verbatim except `hasInternalStorage`, which is
recomputed from the mock flavor. -/
theorem c5_mock_override (s : String) (fam : FreeboxModel)
    (h : parseMockEnv (some s) = some fam)
    (c₁ c₂ : Except String (FreeboxApiResponse ApiVersionResponse)) :
    performDetection (some s) c₁ = performDetection (some s) c₂ ∧
    performDetection (some s) c₁ =
      buildCapabilities fam (MOCK_MODEL_NAMES fam).1 (MOCK_MODEL_NAMES fam).2 ∧
    (performDetection (some s) c₁).model = (MODEL_CAPABILITIES fam).model ∧
    (performDetection (some s) c₁).wifi6ghz = (MODEL_CAPABILITIES fam).wifi6ghz ∧
    (performDetection (some s) c₁).wifi7 = (MODEL_CAPABILITIES fam).wifi7 ∧
    (performDetection (some s) c₁).vmSupport = (MODEL_CAPABILITIES fam).vmSupport ∧
    (performDetection (some s) c₁).maxVms = (MODEL_CAPABILITIES fam).maxVms ∧
    (performDetection (some s) c₁).maxVmRam = (MODEL_CAPABILITIES fam).maxVmRam ∧
    (performDetection (some s) c₁).temperatureType = (MODEL_CAPABILITIES fam).temperatureType ∧
    (performDetection (some s) c₁).temperatureFields = (MODEL_CAPABILITIES fam).temperatureFields ∧
    (performDetection (some s) c₁).maxEthernetSpeed = (MODEL_CAPABILITIES fam).maxEthernetSpeed ∧
    (performDetection (some s) c₁).maxDownloadSpeed = (MODEL_CAPABILITIES fam).maxDownloadSpeed ∧
    (performDetection (some s) c₁).maxUploadSpeed = (MODEL_CAPABILITIES fam).maxUploadSpeed ∧
    (performDetection (some s) c₁).modelName = (MOCK_MODEL_NAMES fam).1 ∧
    (performDetection (some s) c₁).hasInternalStorage = ((MOCK_MODEL_NAMES fam).2 == .full) := by
  unfold performDetection
  rw [h]
  simp [buildCapabilities]

/-- Witness for C5 (amended): `MOCK_FREEBOX_MODEL=POP` (uppercase, to
exercise the lowercasing) yields the pop mock record regardless of the
live-call outcome. -/
theorem c5_witness :
    performDetection (some "POP") (.error "x") =
      buildCapabilities .pop (MOCK_MODEL_NAMES .pop).1 (MOCK_MODEL_NAMES .pop).2 :=
  (c5_mock_override "POP" .pop (by decide) (.error "x")
    (.ok { success := true })).2.1

end Freebox

namespace Freebox

lemma request_expected_failure {T : Type} (st : ServiceState) (auth : Bool)
    (out : NetOutcome T) (h : expectedFailure out) :
    (request st auth out).success = false := by
  cases out with
  | fetchError m => rfl
  | httpResponse ct status body =>
    simp only [expectedFailure] at h
    rcases h with hct | ⟨e, he⟩ | ⟨r, hr, hs⟩
    · simp [request, hct]
    · subst he
      cases hcj : contentTypeIsJson ct <;> simp [request, hcj]
    · subst hr
      cases hcj : contentTypeIsJson ct <;> simp [request, hcj, hs]

/-- C2 counterexample: on an appliance-reported failure envelope (an
expected failure mode), `register` does not return a structured failure
result — it throws (modelled by `Except.error`) with the envelope's
message. -/
theorem c2_counterexample :
    register {} {} (.httpResponse (some "application/json") 200
        (.ok { success := false, msg := some "denied" })) =
      (.error "denied", 1) := by decide

/-- C2 as amended: only the Request Façade never throws — for every
expected failure mode (unreachable/timeout, non-JSON response,
unparseable body, failure envelope) `request` returns a structured
envelope with `success = false`.  The Authentication Session Manager
operations (`register`, `checkRegistrationStatus`, `getChallenge`,
`login`) instead convert such failures into thrown errors: each throws
whenever its underlying exchange hits an expected failure mode (for
`login`, on either the challenge fetch or — given a held token and a
non-empty challenge — the session-open call). -/
theorem c2_failure_propagation :
    (∀ (T : Type) (st : ServiceState) (auth : Bool) (out : NetOutcome T),
        expectedFailure out → (request st auth out).success = false) ∧
    (∀ (st : ServiceState) (fs : TokenFs) (out : NetOutcome RegisterResult),
        expectedFailure out → isThrown (register st fs out).1 = true) ∧
    (∀ (st : ServiceState) (tid : Nat) (out : NetOutcome TrackStatusResult),
        expectedFailure out → isThrown (checkRegistrationStatus st tid out).1 = true) ∧
    (∀ (st : ServiceState) (out : NetOutcome ChallengeResult),
        expectedFailure out → isThrown (getChallenge st out).1 = true) ∧
    (∀ (st : ServiceState) (chalOut : NetOutcome ChallengeResult)
        (sessOut : NetOutcome SessionResult),
        expectedFailure chalOut → isThrown (login st chalOut sessOut).1 = true) ∧
    (∀ (st : ServiceState) (ch : String) (sessOut : NetOutcome SessionResult),
        st.appToken.isSome = true → ch ≠ "" → expectedFailure sessOut →
        isThrown (login st (goodChallenge ch) sessOut).1 = true) := by
  refine ⟨fun T st auth out h => request_expected_failure st auth out h, ?_, ?_, ?_, ?_, ?_⟩
  · intro st fs out h
    have hs := request_expected_failure st false out h
    cases hres : (request st false out).result <;> simp [register, hs, hres, isThrown]
  · intro st tid out h
    have hs := request_expected_failure st false out h
    cases hres : (request st false out).result <;>
      simp [checkRegistrationStatus, hs, hres, isThrown]
  · intro st out h
    have hs := request_expected_failure st false out h
    cases hres : (request st false out).result <;> simp [getChallenge, hs, hres, isThrown]
  · intro st chalOut sessOut h
    cases hat : st.appToken with
    | none => simp [login, hat, isThrown]
    | some tok =>
      have hs := request_expected_failure st false chalOut h
      cases hres : (request st false chalOut).result <;>
        simp [login, getChallenge, hat, hs, hres, isThrown]
  · intro st ch sessOut hat hch h
    obtain ⟨tok, htok⟩ := Option.isSome_iff_exists.mp hat
    have hct : contentTypeIsJson (some "application/json") = true := by decide
    have hgc : ∀ st' : ServiceState, request st' false (goodChallenge ch) =
        { success := true, result := some { logged_in := false, challenge := ch } } := by
      intro st'
      simp [request, goodChallenge, hct]
    have hs := request_expected_failure
      ⟨some tok, st.sessionToken, some ch, st.permissions⟩ false sessOut h
    cases hres : (request (⟨some tok, st.sessionToken, some ch, st.permissions⟩ :
        ServiceState) false sessOut).result <;>
      simp [login, getChallenge, hgc, htok, hch, computePassword, hs, hres, isThrown]

/-- Witness for C2 (amended) at concrete failure modes: a fetch error
makes `request` return a `success = false` envelope and makes `register`
and `login` throw. -/
theorem c2_witness :
    (request (T := Unit) {} true (.fetchError "down")).success = false ∧
    isThrown (register {} {} (.fetchError "down")).1 = true ∧
    isThrown (login { appToken := some "t" } (goodChallenge "c") (.fetchError "down")).1 = true :=
  ⟨c2_failure_propagation.1 Unit {} true (.fetchError "down") trivial,
   c2_failure_propagation.2.1 {} {} (.fetchError "down") trivial,
   c2_failure_propagation.2.2.2.2.2 { appToken := some "t" } "c" (.fetchError "down")
     rfl (by decide) trivial⟩

/-- C3 counterexample: with no active session token, an authenticated
call through the Request Façade does *not* fail fast locally — the
network exchange still happens and its (here successful) envelope is
returned to the caller. -/
theorem c3_counterexample :
    ({} : ServiceState).sessionToken = Option.none ∧
    request (T := Unit) {} true
        (.httpResponse (some "application/json") 200
          (.ok { success := true, result := some () })) =
      { success := true, result := some () } := by decide

/-- C3 as amended: `login()` on a state holding no ApplicationToken fails
with the state error immediately and with zero network calls; but an
authenticated `request` on a state with no active session token is not
rejected locally — it merely omits the auth header and behaves exactly
like an unauthenticated request (the network call is still made). -/
theorem c3_state_errors :
    (∀ (st : ServiceState) (o₁ : NetOutcome ChallengeResult)
        (o₂ : NetOutcome SessionResult),
        st.appToken = Option.none →
        login st o₁ o₂ = (.error "No app_token available. Please register first.", 0)) ∧
    (∀ (T : Type) (st : ServiceState) (out : NetOutcome T),
        st.sessionToken = Option.none →
        requestAuthHeader st true = Option.none ∧
        request st true out = request st false out) := by
  constructor
  · intro st o₁ o₂ h
    simp [login, h]
  · intro T st out h
    exact ⟨by simp [requestAuthHeader, h], rfl⟩

/-- Witness for C3 (amended): a fresh state has no token, so a concrete
`login` fails locally with zero calls; and the auth header is absent on
a session-less authenticated request. -/
theorem c3_witness :
    login {} (.fetchError "a") (.fetchError "b") =
      (.error "No app_token available. Please register first.", 0) ∧
    requestAuthHeader {} true = Option.none :=
  ⟨c3_state_errors.1 {} (.fetchError "a") (.fetchError "b") rfl,
   (c3_state_errors.2 Unit {} (.fetchError "z") rfl).1⟩

end Freebox

namespace Freebox

lemma login_ok_state (st : ServiceState) (o₁ : NetOutcome ChallengeResult)
    (o₂ : NetOutcome SessionResult) (st' : ServiceState) (sd : SessionData) (n : Nat)
    (h : login st o₁ o₂ = (.ok (st', sd), n)) :
    st'.sessionToken = some sd.sessionToken ∧ st'.permissions = sd.permissions := by
  unfold login at h
  split at h
  · simp at h
  · split at h
    · simp at h
    · split at h
      · simp at h
      · split at h
        · simp at h
        · split at h
          · simp at h
          · simp only [] at h
            split at h
            · simp only [Prod.mk.injEq, Except.ok.injEq] at h
              obtain ⟨⟨hst, hsd⟩, -⟩ := h
              subst hst
              subst hsd
              constructor <;> simp
            · simp at h

/-- C10 counterexample: the claim fails when the appliance grants an
empty session token.  The login succeeds (the code stores `session_token`
without validating it), but `logout` is then a no-op — the JS-falsy guard
`if (this.sessionToken)` skips both the network call and the clearing —
so the session token is not set to null and `isLoggedIn()` (a
`!== null` test) stays true. -/
theorem c10_counterexample :
    login { appToken := some "tok" } (goodChallenge "chal")
        (.httpResponse (some "application/json") 200
          (.ok { success := true, result := some { session_token := "", challenge := "next", permissions := [("settings", true)] } })) =
      (.ok ({ appToken := some "tok", sessionToken := some "", challenge := some "next", permissions := [("settings", true)] },
            { sessionToken := "", challenge := "next", permissions := [("settings", true)] }), 2) ∧
    logout { appToken := some "tok", sessionToken := some "", challenge := some "next", permissions := [("settings", true)] } (.fetchError "x") =
      ({ appToken := some "tok", sessionToken := some "", challenge := some "next", permissions := [("settings", true)] }, 0) ∧
    isLoggedIn (logout { appToken := some "tok", sessionToken := some "", challenge := some "next", permissions := [("settings", true)] } (.fetchError "x")).1 = true := by
  decide

/-- C10 as amended: `logout` after a successful `login` modifies at most
the in-memory session token, and clears it exactly when it is truthy.
If the login's granted session token is non-empty, `logout` sets it to
null (so `isLoggedIn` becomes false) while the ApplicationToken, the
stored challenge and the permission set are unchanged — in particular
`getPermissions` still returns the permission set from that login.  If
the granted session token is the empty string (JS-falsy), `logout` is a
no-op: the state is left entirely unchanged (zero network calls) and
`isLoggedIn` remains true. -/
theorem c10_logout_frame (st : ServiceState) (o₁ : NetOutcome ChallengeResult)
    (o₂ : NetOutcome SessionResult) (st' : ServiceState) (sd : SessionData) (n : Nat)
    (out : NetOutcome Unit)
    (h : login st o₁ o₂ = (.ok (st', sd), n)) :
    (sd.sessionToken ≠ "" →
      (logout st' out).1.sessionToken = Option.none ∧
      isLoggedIn (logout st' out).1 = false ∧
      (logout st' out).1.appToken = st'.appToken ∧
      (logout st' out).1.challenge = st'.challenge ∧
      (logout st' out).1.permissions = st'.permissions ∧
      getPermissions (logout st' out).1 = sd.permissions) ∧
    (sd.sessionToken = "" →
      logout st' out = (st', 0) ∧ isLoggedIn (logout st' out).1 = true) := by
  obtain ⟨hsess, hperm⟩ := login_ok_state st o₁ o₂ st' sd n h
  constructor
  · intro hne
    have hlog : logout st' out = ({ st' with sessionToken := Option.none }, 1) := by
      unfold logout
      rw [hsess]
      show (if sd.sessionToken = "" then (st', 0)
            else ({ st' with sessionToken := Option.none }, 1)) =
          ({ st' with sessionToken := Option.none }, 1)
      rw [if_neg hne]
    rw [hlog]
    simp [isLoggedIn, getPermissions, hperm]
  · intro heq
    have hnoop : logout st' out = (st', 0) := by
      unfold logout
      rw [hsess]
      show (if sd.sessionToken = "" then (st', 0)
            else ({ st' with sessionToken := Option.none }, 1)) = (st', 0)
      rw [if_pos heq]
    refine ⟨hnoop, ?_⟩
    rw [hnoop]
    simp [isLoggedIn, hsess]

/-- Witness for C10 (amended), applying the theorem to two concrete
successful logins: one granting the non-empty session token "sess"
(cleared by `logout`, permissions preserved) and one granting the empty
token (logout is a no-op and the service still reports logged-in). -/
theorem c10_witness :
    ((logout { appToken := some "tok", sessionToken := some "sess", challenge := some "next", permissions := [("settings", true)] } (.fetchError "x")).1.sessionToken = Option.none ∧
     isLoggedIn (logout { appToken := some "tok", sessionToken := some "sess", challenge := some "next", permissions := [("settings", true)] } (.fetchError "x")).1 = false ∧
     (logout { appToken := some "tok", sessionToken := some "sess", challenge := some "next", permissions := [("settings", true)] } (.fetchError "x")).1.appToken = ({ appToken := some "tok", sessionToken := some "sess", challenge := some "next", permissions := [("settings", true)] } : ServiceState).appToken ∧
     (logout { appToken := some "tok", sessionToken := some "sess", challenge := some "next", permissions := [("settings", true)] } (.fetchError "x")).1.challenge = ({ appToken := some "tok", sessionToken := some "sess", challenge := some "next", permissions := [("settings", true)] } : ServiceState).challenge ∧
     (logout { appToken := some "tok", sessionToken := some "sess", challenge := some "next", permissions := [("settings", true)] } (.fetchError "x")).1.permissions = ({ appToken := some "tok", sessionToken := some "sess", challenge := some "next", permissions := [("settings", true)] } : ServiceState).permissions ∧
     getPermissions (logout { appToken := some "tok", sessionToken := some "sess", challenge := some "next", permissions := [("settings", true)] } (.fetchError "x")).1 = ({ sessionToken := "sess", challenge := "next", permissions := [("settings", true)] } : SessionData).permissions) ∧
    (logout { appToken := some "tok", sessionToken := some "", challenge := some "next", permissions := [("settings", true)] } (.fetchError "x") = ({ appToken := some "tok", sessionToken := some "", challenge := some "next", permissions := [("settings", true)] }, 0) ∧
     isLoggedIn (logout { appToken := some "tok", sessionToken := some "", challenge := some "next", permissions := [("settings", true)] } (.fetchError "x")).1 = true) :=
  ⟨(c10_logout_frame { appToken := some "tok" } (goodChallenge "chal")
      (.httpResponse (some "application/json") 200
        (.ok { success := true, result := some { session_token := "sess", challenge := "next", permissions := [("settings", true)] } }))
      { appToken := some "tok", sessionToken := some "sess", challenge := some "next", permissions := [("settings", true)] }
      { sessionToken := "sess", challenge := "next", permissions := [("settings", true)] }
      2 (.fetchError "x") (by decide)).1 (by decide),
   (c10_logout_frame { appToken := some "tok" } (goodChallenge "chal")
      (.httpResponse (some "application/json") 200
        (.ok { success := true, result := some { session_token := "", challenge := "next", permissions := [("settings", true)] } }))
      { appToken := some "tok", sessionToken := some "", challenge := some "next", permissions := [("settings", true)] }
      { sessionToken := "", challenge := "next", permissions := [("settings", true)] }
      2 (.fetchError "x") (by decide)).2 rfl⟩

end Freebox

namespace Freebox

lemma jsonEscape_cons (c : Char) (cs : List Char) :
    jsonEscape (c :: cs) = jsonEscapeChar c ++ jsonEscape cs := rfl

lemma parseJsonStringBody_escape (cs rest : List Char) :
    parseJsonStringBody (jsonEscape cs ++ '"' :: rest) = some (cs, rest) := by
  induction cs with
  | nil =>
    rw [show jsonEscape [] ++ '"' :: rest = '"' :: rest from rfl,
      parseJsonStringBody.eq_def]
    simp
  | cons c cs ih =>
    rw [jsonEscape_cons, List.append_assoc]
    by_cases h1 : c = '"'
    · subst h1
      rw [show jsonEscapeChar '"' ++ (jsonEscape cs ++ '"' :: rest) =
          '\\' :: '"' :: (jsonEscape cs ++ '"' :: rest) from rfl,
        parseJsonStringBody.eq_def]
      simp [ih]
    by_cases h2 : c = '\\'
    · subst h2
      rw [show jsonEscapeChar '\\' ++ (jsonEscape cs ++ '"' :: rest) =
          '\\' :: '\\' :: (jsonEscape cs ++ '"' :: rest) from rfl,
        parseJsonStringBody.eq_def]
      simp [ih]
    by_cases h3 : c = Char.ofNat 8
    · subst h3
      rw [show jsonEscapeChar (Char.ofNat 8) ++ (jsonEscape cs ++ '"' :: rest) =
          '\\' :: 'b' :: (jsonEscape cs ++ '"' :: rest) from rfl,
        parseJsonStringBody.eq_def]
      simp [ih]
    by_cases h4 : c = Char.ofNat 9
    · subst h4
      rw [show jsonEscapeChar (Char.ofNat 9) ++ (jsonEscape cs ++ '"' :: rest) =
          '\\' :: 't' :: (jsonEscape cs ++ '"' :: rest) from rfl,
        parseJsonStringBody.eq_def]
      simp [ih]
    by_cases h5 : c = Char.ofNat 10
    · subst h5
      rw [show jsonEscapeChar (Char.ofNat 10) ++ (jsonEscape cs ++ '"' :: rest) =
          '\\' :: 'n' :: (jsonEscape cs ++ '"' :: rest) from rfl,
        parseJsonStringBody.eq_def]
      simp [ih]
    by_cases h6 : c = Char.ofNat 12
    · subst h6
      rw [show jsonEscapeChar (Char.ofNat 12) ++ (jsonEscape cs ++ '"' :: rest) =
          '\\' :: 'f' :: (jsonEscape cs ++ '"' :: rest) from rfl,
        parseJsonStringBody.eq_def]
      simp [ih]
    by_cases h7 : c = Char.ofNat 13
    · subst h7
      rw [show jsonEscapeChar (Char.ofNat 13) ++ (jsonEscape cs ++ '"' :: rest) =
          '\\' :: 'r' :: (jsonEscape cs ++ '"' :: rest) from rfl,
        parseJsonStringBody.eq_def]
      simp [ih]
    by_cases h8 : c.toNat < 32
    · have hdiv : c.toNat / 16 < 16 := by omega
      have hmod : c.toNat % 16 < 16 := Nat.mod_lt _ (by norm_num)
      have he : jsonEscapeChar c =
          ['\\', 'u', '0', '0', toHexDigitChar (c.toNat / 16),
           toHexDigitChar (c.toNat % 16)] := by
        simp [jsonEscapeChar, h1, h2, h3, h4, h5, h6, h7, h8]
      have hchar : Char.ofNat (c.toNat / 16 * 16 + c.toNat % 16) = c := by
        rw [show c.toNat / 16 * 16 + c.toNat % 16 = c.toNat from by omega,
          char_ofNat_toNat_small c (by omega)]
      rw [he]
      rw [show ['\\', 'u', '0', '0', toHexDigitChar (c.toNat / 16),
            toHexDigitChar (c.toNat % 16)] ++ (jsonEscape cs ++ '"' :: rest) =
          '\\' :: 'u' :: '0' :: '0' :: toHexDigitChar (c.toNat / 16) ::
            toHexDigitChar (c.toNat % 16) :: (jsonEscape cs ++ '"' :: rest) from rfl,
        parseJsonStringBody.eq_def]
      simp [fromHex_zero, fromHex_toHex _ hdiv, fromHex_toHex _ hmod, hchar, ih]
    · have he : jsonEscapeChar c = [c] := by
        simp [jsonEscapeChar, h1, h2, h3, h4, h5, h6, h7, h8]
      rw [he]
      rw [show [c] ++ (jsonEscape cs ++ '"' :: rest) =
          c :: (jsonEscape cs ++ '"' :: rest) from rfl,
        parseJsonStringBody.eq_def]
      simp [h1, h2, h8, ih]

lemma decode_encode (tok : String) :
    decodeTokenFile (encodeTokenFile tok) = some tok := by
  have h1 : decodeTokenFile (encodeTokenFile tok) =
      finishTokenDoc (parseJsonStringBody
        (jsonEscape tok.data ++ '"' :: '\n' :: '}' :: [])) := rfl
  rw [h1, parseJsonStringBody_escape]
  rfl

/-- C7: token persistence round-trips.  `saveToken` leaves the parent
directory existing and, for every ApplicationToken string, a subsequent
`loadToken` from the same configured location recovers exactly the token
that was saved. -/
theorem c7_token_roundtrip (fs : TokenFs) (tok : String) :
    (saveTokenFs fs tok).dirExists = true ∧
    loadTokenFs (saveTokenFs fs tok) = some tok := by
  exact ⟨rfl, decode_encode tok⟩

end Freebox
